import Mathlib

/-!
Verification of the CWD resolution engine of nkmr-jp/prompt-line.

The repository artifact under src/ is the declaration-only bridging header
src/native/libproc-bridge.h.  The resolution engine itself
(StructuredQuerySource, ExternalToolSource, SourceCascade, ResolutionCache,
Resolver) is not present under src/, so those components are modelled from
the specification and the claims are settled against that model.  The
bridging header is embedded directly from its text.
-/

set_option autoImplicit false

/-- Shallow embedding of src/native/libproc-bridge.h: the facts the header
file states — its include-guard macro, its two `#include` lines, and the
header comment's content (it is a bridging header for libproc exposing C
functions to Swift for fast CWD detection via proc_pidinfo, 10-50x faster
than the lsof command). -/
structure BridgingHeader where
  guardMacro : String
  includes : List String
  wrappedLibrary : String
  fastPathInterface : String
  exposedTo : String
  comparedCommand : String
  speedupFactorLow : Nat
  speedupFactorHigh : Nat
  deriving DecidableEq

/-- The content of src/native/libproc-bridge.h, field by field. -/
def libproc_bridge_h : BridgingHeader :=
  ⟨"libproc_bridge_h",
   ["libproc.h", "sys/proc_info.h"],
   "libproc",
   "proc_pidinfo",
   "Swift",
   "lsof",
   10,
   50⟩

/-- Modelled from the spec (§3): `SourceKind` enum recording provenance.
The resolution engine is missing from src/, so this and all engine
definitions below follow the spec's words. -/
inductive SourceKind where
  | Structured
  | ExternalTool
  deriving BEq, DecidableEq

/-- Modelled from the spec (§3): `ResolutionResult` tagged variant. -/
inductive ResolutionResult where
  | Resolved (dir : String) (source : SourceKind)
  | NotFound
  | PermissionDenied
  | Unsupported
  | Timeout
  deriving BEq, DecidableEq

/-- Modelled from the spec (§3, glossary): one process lifetime, i.e. the
start token that disambiguates PID reuse, together with the process's CWD. -/
structure ProcInfo where
  startToken : Nat
  cwd : String
  deriving BEq, DecidableEq

/-- Modelled from the spec (§4.1, §4.2, §6): the OS collaborators the engine
consumes, as a snapshot — the process table (CWD + start token per PID), the
availability and per-PID permission of the structured kernel interface,
whether the underlying structured primitive would block (§4.1 wraps it with
a timeout), and the external diagnostic tool's wall-clock runtime and
parsed per-PID output lines. -/
structure OsModel where
  procs : Nat → Option ProcInfo
  structuredAvailable : Bool
  structuredAccess : Nat → Bool
  structuredHangs : Nat → Bool
  toolRuntimeMs : Nat
  toolOutput : List (Nat × String)

/-- Modelled from the spec (§6): the liveness probe — the live process's
current start token for a PID, `none` when the process is gone. -/
def OsModel.liveToken (os : OsModel) (pid : Nat) : Option Nat :=
  (os.procs pid).map (fun i => i.startToken)

/-- Modelled from the spec (§6): recognized configuration options. -/
structure ResolverConfig where
  cacheCapacity : Nat
  cacheTtlMs : Nat
  negativeTtlMs : Nat
  externalToolTimeoutMs : Nat
  enableExternalFallback : Bool
  deriving BEq, DecidableEq

/-- Modelled from the spec (§6): the defaults the spec indicates — a short
positive TTL (low hundreds of milliseconds), a longer negative TTL, an
external-tool budget of order seconds, fallback enabled. -/
def defaultConfig : ResolverConfig :=
  ⟨128, 300, 30000, 2000, true⟩

/-- Modelled from the spec (§4.1): the structured query's outcome — the
`ResolutionResult` plus the start token retrieved atomically with the CWD
on success. -/
structure StructuredOutcome where
  result : ResolutionResult
  startToken : Option Nat
  deriving BEq, DecidableEq

/-- Modelled from the spec (§4.1): `StructuredQuerySource.query`.
`Unsupported` if the platform/build lacks the interface; `Timeout` if the
underlying primitive would block (the caller's timeout guard fires);
`NotFound` if the OS reports no such process; `PermissionDenied` on a
rights boundary; otherwise the CWD with the start token, atomically. -/
def StructuredQuerySource.query (os : OsModel) (pid : Nat) : StructuredOutcome :=
  if ¬ os.structuredAvailable then ⟨.Unsupported, none⟩
  else if os.structuredHangs pid then ⟨.Timeout, none⟩
  else
    match os.procs pid with
    | none => ⟨.NotFound, none⟩
    | some info =>
      if os.structuredAccess pid then ⟨.Resolved info.cwd .Structured, some info.startToken⟩
      else ⟨.PermissionDenied, none⟩

/-- Modelled from the spec (§4.2): the external query's outcome — the
result, the wall-clock time consumed, and whether the spawned subprocess
was killed (on timeout it must be). -/
structure ExternalOutcome where
  result : ResolutionResult
  elapsedMs : Nat
  killedSubprocess : Bool
  deriving BEq, DecidableEq

/-- Modelled from the spec (§4.2): `ExternalToolSource.query`.  If the tool
exceeds the wall-clock budget it is killed and `Timeout` is returned; a PID
absent from the tool's output (including the process-vanished race) is
`NotFound`, not an error; otherwise the parsed CWD line is returned. -/
def ExternalToolSource.query (cfg : ResolverConfig) (os : OsModel) (pid : Nat) :
    ExternalOutcome :=
  if cfg.externalToolTimeoutMs < os.toolRuntimeMs then
    ⟨.Timeout, cfg.externalToolTimeoutMs, true⟩
  else
    match os.toolOutput.lookup pid with
    | none => ⟨.NotFound, os.toolRuntimeMs, false⟩
    | some d => ⟨.Resolved d .ExternalTool, os.toolRuntimeMs, false⟩

/-- Modelled from the spec (§4.3): when both sources fail, the last error is
returned, preferring the more specific `PermissionDenied` over a generic
failure. -/
def preferError (firstErr lastErr : ResolutionResult) : ResolutionResult :=
  if firstErr = .PermissionDenied ∨ lastErr = .PermissionDenied then .PermissionDenied
  else lastErr

/-- Modelled from the spec (§4.3): the cascade's outcome — the result, the
start token when the structured source supplied one, instrumentation
counters for how many times each source was queried (the spec's call-count
instrumentation, §8), and whether the structured source reported
`Unsupported` (so the session can skip it from then on, §7). -/
structure CascadeOutcome where
  result : ResolutionResult
  startToken : Option Nat
  structuredCalls : Nat
  externalCalls : Nat
  sawUnsupported : Bool
  deriving BEq, DecidableEq

/-- Modelled from the spec (§4.3): the cascade's fall-through step after
the structured source failed with `firstErr` — query `ExternalToolSource`
when fallback is enabled; if it also fails, return the last error via
`preferError`; record whether the structured failure was `Unsupported`. -/
def SourceCascade.fallThrough (cfg : ResolverConfig) (os : OsModel) (pid : Nat)
    (firstErr : ResolutionResult) : CascadeOutcome :=
  if cfg.enableExternalFallback then
    match (ExternalToolSource.query cfg os pid).result with
    | .Resolved d k => ⟨.Resolved d k, none, 1, 1, firstErr == .Unsupported⟩
    | lastErr => ⟨preferError firstErr lastErr, none, 1, 1, firstErr == .Unsupported⟩
  else ⟨firstErr, none, 1, 0, firstErr == .Unsupported⟩

/-- Modelled from the spec (§4.3, §7): `SourceCascade.resolve`.  Tries
`StructuredQuerySource` first (unless the session already learned it is
unsupported, in which case it is skipped permanently); `NotFound` from it
is authoritative and short-circuits; `Unsupported`, `PermissionDenied` and
`Timeout` fall through to `ExternalToolSource` via
`SourceCascade.fallThrough`. -/
def SourceCascade.resolve (cfg : ResolverConfig) (os : OsModel)
    (skipStructured : Bool) (pid : Nat) : CascadeOutcome :=
  if skipStructured then
    if cfg.enableExternalFallback then
      ⟨(ExternalToolSource.query cfg os pid).result, none, 0, 1, false⟩
    else ⟨.Unsupported, none, 0, 0, false⟩
  else
    match (StructuredQuerySource.query os pid).result with
    | .Resolved d k =>
      ⟨.Resolved d k, (StructuredQuerySource.query os pid).startToken, 1, 0, false⟩
    | .NotFound => ⟨.NotFound, none, 1, 0, false⟩
    | .PermissionDenied => SourceCascade.fallThrough cfg os pid .PermissionDenied
    | .Unsupported => SourceCascade.fallThrough cfg os pid .Unsupported
    | .Timeout => SourceCascade.fallThrough cfg os pid .Timeout

/-- Modelled from the spec (§3): `CacheEntry`. -/
structure CacheEntry where
  pid : Nat
  value : ResolutionResult
  observedAt : Nat
  processStartToken : Option Nat
  deriving BEq, DecidableEq

/-- Modelled from the spec (§4.4): the cache's store, most recently used
entry first (so LRU eviction on overflow drops from the back). -/
structure CacheState where
  entries : List CacheEntry
  deriving BEq, DecidableEq

/-- The entry currently stored for a PID, if any. -/
def CacheState.findPid (c : CacheState) (pid : Nat) : Option CacheEntry :=
  c.entries.find? (fun e => e.pid == pid)

/-- Remove every stored entry for a PID. -/
def CacheState.removePid (c : CacheState) (pid : Nat) : CacheState :=
  ⟨c.entries.filter (fun e => e.pid != pid)⟩

/-- Modelled from the spec (§4.4, §7): the TTL applied to a cached result —
`PermissionDenied` and `Unsupported` get the longer negative TTL, positive
and other results the short positive TTL. -/
def ttlFor (cfg : ResolverConfig) : ResolutionResult → Nat
  | .PermissionDenied => cfg.negativeTtlMs
  | .Unsupported => cfg.negativeTtlMs
  | _ => cfg.cacheTtlMs

/-- Modelled from the spec (§3, §4.4): an entry may be returned only while
its stored `processStartToken` matches the live process's current start
token and its TTL has not expired. -/
def entryFresh (cfg : ResolverConfig) (live : Option Nat) (now : Nat)
    (e : CacheEntry) : Bool :=
  e.processStartToken == live && now < e.observedAt + ttlFor cfg e.value

/-- Modelled from the spec (§4.4): `ResolutionCache.get`.  Re-validates the
entry's start token against the liveness probe and its TTL; a mismatch or
expiry is treated as a miss and the stale entry is evicted; a hit moves the
entry to the front (most recently used). -/
def ResolutionCache.get (cfg : ResolverConfig) (live : Nat → Option Nat)
    (now : Nat) (c : CacheState) (pid : Nat) :
    Option ResolutionResult × CacheState :=
  match c.findPid pid with
  | none => (none, c)
  | some e =>
    if entryFresh cfg (live pid) now e then (some e.value, ⟨e :: (c.removePid pid).entries⟩)
    else (none, c.removePid pid)

/-- Modelled from the spec (§4.4, §7): `ResolutionCache.put`.  Replaces the
whole entry for the PID, inserts most-recently-used first and truncates to
capacity (LRU eviction).  `Timeout` is transient and not sticky: it is not
stored, so future calls retry from scratch. -/
def ResolutionCache.put (cfg : ResolverConfig) (c : CacheState) (pid : Nat)
    (r : ResolutionResult) (tok : Option Nat) (now : Nat) : CacheState :=
  match r with
  | .Timeout => c
  | _ => ⟨(CacheEntry.mk pid r now tok :: (c.removePid pid).entries).take cfg.cacheCapacity⟩

/-- Modelled from the spec (§4.5, §7): the resolver's state — the shared
cache plus the session-sticky flag set once the structured source reported
`Unsupported` (the cascade permanently skips that source for the session). -/
structure ResolverState where
  cache : CacheState
  structuredUnsupported : Bool
  deriving BEq, DecidableEq

/-- Modelled from the spec (§4.5, §8): one resolution's outcome with the
call-count instrumentation the spec's testable properties use — how many
cascade executions ran and how often each source was queried. -/
structure ResolveOutcome where
  result : ResolutionResult
  state : ResolverState
  cascadeRuns : Nat
  structuredCalls : Nat
  externalCalls : Nat
  deriving BEq, DecidableEq

/-- Modelled from the spec (§3, §4.1): the start token stored alongside a
cascade outcome — the structured source's atomically-retrieved token when
present, otherwise the liveness probe's current token. -/
def tokenForStore (c : CascadeOutcome) (os : OsModel) (pid : Nat) : Option Nat :=
  match c.startToken with
  | some t => some t
  | none => os.liveToken pid

/-- Modelled from the spec (§4.5): `Resolver.resolveOne`.  Consults the
cache first (a hit returns immediately with no OS query); on a miss runs
the cascade, stores the outcome with its start token, and records an
`Unsupported` report in the session flag. -/
def Resolver.resolveOne (cfg : ResolverConfig) (os : OsModel) (now : Nat)
    (st : ResolverState) (pid : Nat) : ResolveOutcome :=
  let g := ResolutionCache.get cfg os.liveToken now st.cache pid
  match g.1 with
  | some r => ⟨r, ⟨g.2, st.structuredUnsupported⟩, 0, 0, 0⟩
  | none =>
    let c := SourceCascade.resolve cfg os st.structuredUnsupported pid
    ⟨c.result, ⟨ResolutionCache.put cfg g.2 pid c.result (tokenForStore c os pid) now,
      st.structuredUnsupported || c.sawUnsupported⟩, 1, c.structuredCalls, c.externalCalls⟩

/-- Modelled from the spec (§4.5): the first pass of `resolveMany` —
resolve cache hits, collecting the hit results and the list of PIDs that
missed, threading the cache (hit reordering, stale eviction). -/
def Resolver.collectHits (cfg : ResolverConfig) (os : OsModel) (now : Nat) :
    List Nat → CacheState → List (Nat × ResolutionResult) × List Nat × CacheState
  | [], c => ([], [], c)
  | p :: ps, c =>
    let g := ResolutionCache.get cfg os.liveToken now c p
    let rest := Resolver.collectHits cfg os now ps g.2
    match g.1 with
    | some r => ((p, r) :: rest.1, rest.2.1, rest.2.2)
    | none => (rest.1, p :: rest.2.1, rest.2.2)

/-- Modelled from the spec (§4.5): the second pass of `resolveMany` —
dispatch only the cache misses through the cascade, each independently,
threading state and accumulating the source call counts. -/
def Resolver.dispatchMisses (cfg : ResolverConfig) (os : OsModel) (now : Nat) :
    List Nat → ResolverState → List (Nat × ResolutionResult) × ResolverState × Nat × Nat
  | [], st => ([], st, 0, 0)
  | p :: ps, st =>
    let c := SourceCascade.resolve cfg os st.structuredUnsupported p
    let st2 : ResolverState :=
      ⟨ResolutionCache.put cfg st.cache p c.result (tokenForStore c os p) now,
       st.structuredUnsupported || c.sawUnsupported⟩
    let rest := Resolver.dispatchMisses cfg os now ps st2
    ((p, c.result) :: rest.1, rest.2.1, c.structuredCalls + rest.2.2.1,
     c.externalCalls + rest.2.2.2)

/-- Modelled from the spec (§4.5): `Resolver.resolveMany` — batch form:
resolves cache hits first, then dispatches only cache misses through the
cascade, returning the per-PID mapping, final state, and source counts. -/
def Resolver.resolveMany (cfg : ResolverConfig) (os : OsModel) (now : Nat)
    (st : ResolverState) (pids : List Nat) :
    List (Nat × ResolutionResult) × ResolverState × Nat × Nat :=
  let hits := Resolver.collectHits cfg os now pids st.cache
  let misses := Resolver.dispatchMisses cfg os now hits.2.1 ⟨hits.2.2, st.structuredUnsupported⟩
  (hits.1 ++ misses.1, misses.2)

/-- Modelled from the spec (§4.5, §9): in-flight request deduplication for
N simultaneous `resolveOne` calls on one PID.  Requests are served in
arrival order against a shared in-flight completion signal: the first
caller for which no signal exists becomes the owner and runs `resolveOne`;
every late joiner attaches to the in-flight signal and observes the same
eventual result without re-invoking the cascade.  Returns each caller's
observed result in order, the final state, and the total cascade runs,
structured calls and external calls. -/
def Resolver.serveSimultaneous (cfg : ResolverConfig) (os : OsModel) (now : Nat)
    (pid : Nat) : Nat → ResolverState → Option ResolutionResult →
    List ResolutionResult × ResolverState × Nat × Nat × Nat
  | 0, st, _ => ([], st, 0, 0, 0)
  | Nat.succ n, st, some r =>
    let rest := Resolver.serveSimultaneous cfg os now pid n st (some r)
    (r :: rest.1, rest.2)
  | Nat.succ n, st, none =>
    let o := Resolver.resolveOne cfg os now st pid
    let rest := Resolver.serveSimultaneous cfg os now pid n o.state (some o.result)
    (o.result :: rest.1, rest.2.1, o.cascadeRuns + rest.2.2.1,
     o.structuredCalls + rest.2.2.2.1, o.externalCalls + rest.2.2.2.2)

/-- The value a cache lookup for a PID would return against a given cache
state: the stored entry's value when the entry exists and is fresh. -/
def hitValue (cfg : ResolverConfig) (os : OsModel) (now : Nat) (c : CacheState)
    (pid : Nat) : Option ResolutionResult :=
  (c.findPid pid).bind (fun e =>
    if entryFresh cfg (os.liveToken pid) now e then some e.value else none)

/-- Fixture: a resolver starting state with an empty cache. -/
def stEmpty : ResolverState := ⟨⟨[]⟩, false⟩

/-- Fixture: PID 1 is alive (token 11, CWD "/a"), the structured interface
is available and permitted, and the external tool also reports PID 1. -/
def osLive : OsModel :=
  ⟨fun p => if p == 1 then some ⟨11, "/a"⟩ else none, true, fun _ => true,
   fun _ => false, 40, [(1, "/a")]⟩

/-- Fixture: the structured interface is unavailable; PID 7 is alive and
the external tool reports its CWD. -/
def osUnavailable : OsModel :=
  ⟨fun p => if p == 7 then some ⟨1, "/d"⟩ else none, false, fun _ => true,
   fun _ => false, 40, [(7, "/d")]⟩

/-- Fixture: the structured interface is unavailable and the external tool
hangs (its runtime exceeds every tested budget). -/
def osHung : OsModel :=
  ⟨fun p => if p == 7 then some ⟨1, "/d"⟩ else none, false, fun _ => true,
   fun _ => false, 5000, []⟩

/-- Fixture: PID 3 is alive but the caller lacks rights to inspect it, and
the external tool output misses it while staying within budget. -/
def osDenied : OsModel :=
  ⟨fun p => if p == 3 then some ⟨5, "/s"⟩ else none, true, fun p => p != 3,
   fun _ => false, 40, []⟩

/-- Fixture: PID 3 is alive, the caller lacks rights to it, and the
external tool hangs. -/
def osDeniedHung : OsModel :=
  ⟨fun p => if p == 3 then some ⟨5, "/s"⟩ else none, true, fun p => p != 3,
   fun _ => false, 5000, []⟩

/-- Fixture: the structured primitive for PID 4 would block, so the
timeout guard fires; the external tool knows PID 4's CWD. -/
def osStructHang : OsModel :=
  ⟨fun p => if p == 4 then some ⟨6, "/h"⟩ else none, true, fun _ => true,
   fun p => p == 4, 40, [(4, "/h")]⟩

/-- Fixture: PID 1 has been reused — a new process with start token 22 and
CWD "/new" now owns it. -/
def osReused : OsModel :=
  ⟨fun p => if p == 1 then some ⟨22, "/new"⟩ else none, true, fun _ => true,
   fun _ => false, 40, [(1, "/new")]⟩

/-- Fixture: a resolver state whose cache holds a stale entry for PID 1
from the old process (token 11, CWD "/a"), as left behind by a resolution
at time 0 under `osLive`. -/
def stStale : ResolverState :=
  ⟨⟨[⟨1, .Resolved "/a" .Structured, 0, some 11⟩]⟩, false⟩

/-- Fixture: a resolver state that has already learned the structured
source is unsupported for this session. -/
def stFlagged : ResolverState := ⟨⟨[]⟩, true⟩

/-! ## Helper lemmas -/

theorem externalQuery_not_permissionDenied (cfg : ResolverConfig) (os : OsModel)
    (pid : Nat) : (ExternalToolSource.query cfg os pid).result ≠ .PermissionDenied := by
  unfold ExternalToolSource.query
  split
  · simp
  · split <;> simp

theorem externalQuery_not_unsupported (cfg : ResolverConfig) (os : OsModel)
    (pid : Nat) : (ExternalToolSource.query cfg os pid).result ≠ .Unsupported := by
  unfold ExternalToolSource.query
  split
  · simp
  · split <;> simp

theorem structuredQuery_token (os : OsModel) (pid : Nat) :
    (StructuredQuerySource.query os pid).startToken = none ∨
    (StructuredQuerySource.query os pid).startToken = os.liveToken pid := by
  unfold StructuredQuerySource.query OsModel.liveToken
  split
  · exact Or.inl rfl
  · split
    · exact Or.inl rfl
    · split
      · exact Or.inl rfl
      · rename_i info heq
        split
        · exact Or.inr (by simp [heq])
        · exact Or.inl rfl

theorem fallThrough_token (cfg : ResolverConfig) (os : OsModel) (pid : Nat)
    (firstErr : ResolutionResult) :
    (SourceCascade.fallThrough cfg os pid firstErr).startToken = none := by
  unfold SourceCascade.fallThrough
  split
  · split <;> rfl
  · rfl

theorem cascade_token (cfg : ResolverConfig) (os : OsModel) (b : Bool) (pid : Nat) :
    (SourceCascade.resolve cfg os b pid).startToken = none ∨
    (SourceCascade.resolve cfg os b pid).startToken = os.liveToken pid := by
  unfold SourceCascade.resolve
  split
  · split
    · exact Or.inl rfl
    · exact Or.inl rfl
  · split
    · exact structuredQuery_token os pid
    · exact Or.inl rfl
    · exact Or.inl (fallThrough_token cfg os pid _)
    · exact Or.inl (fallThrough_token cfg os pid _)
    · exact Or.inl (fallThrough_token cfg os pid _)

/-! ## Claim theorems -/

/-- C10: the collaborators the spec leaves abstract are concretely fixed by
the binding — the bridging header includes libproc.h and sys/proc_info.h
for Swift, the structured fast path is libproc's proc_pidinfo interface,
and the external diagnostic tool of the fallback path is the lsof command,
relative to which the fast path is 10-50x faster. -/
theorem claim_C10_bridging_header_binding :
    "libproc.h" ∈ libproc_bridge_h.includes ∧
    "sys/proc_info.h" ∈ libproc_bridge_h.includes ∧
    libproc_bridge_h.wrappedLibrary = "libproc" ∧
    libproc_bridge_h.fastPathInterface = "proc_pidinfo" ∧
    libproc_bridge_h.exposedTo = "Swift" ∧
    libproc_bridge_h.comparedCommand = "lsof" ∧
    libproc_bridge_h.speedupFactorLow = 10 ∧
    libproc_bridge_h.speedupFactorHigh = 50 := by
  simp [libproc_bridge_h]

/-- C2: for every PID, `NotFound` from `StructuredQuerySource.query` is
authoritative — `SourceCascade.resolve` returns `NotFound` without
invoking `ExternalToolSource` — and for a PID whose process does not exist
`resolveOne` returns `NotFound` with no external-tool call. -/
theorem claim_C2_notFound_short_circuits :
    (∀ (cfg : ResolverConfig) (os : OsModel) (pid : Nat),
      (StructuredQuerySource.query os pid).result = .NotFound →
        (SourceCascade.resolve cfg os false pid).result = .NotFound ∧
        (SourceCascade.resolve cfg os false pid).externalCalls = 0) ∧
    (∀ (cfg : ResolverConfig) (os : OsModel) (now : Nat) (st : ResolverState) (pid : Nat),
      st.cache.findPid pid = none → os.procs pid = none →
      os.structuredAvailable = true → os.structuredHangs pid = false →
      st.structuredUnsupported = false →
        (Resolver.resolveOne cfg os now st pid).result = .NotFound ∧
        (Resolver.resolveOne cfg os now st pid).externalCalls = 0) := by
  constructor
  · intro cfg os pid h
    constructor <;> simp [SourceCascade.resolve, h]
  · intro cfg os now st pid hmiss hdead havail hhang hflag
    have hq : StructuredQuerySource.query os pid = ⟨.NotFound, none⟩ := by
      simp [StructuredQuerySource.query, havail, hhang, hdead]
    have hget : ResolutionCache.get cfg os.liveToken now st.cache pid = (none, st.cache) := by
      simp [ResolutionCache.get, hmiss]
    constructor <;>
      simp [Resolver.resolveOne, hget, SourceCascade.resolve, hflag, hq]

/-- Witness for C2: PID 2 does not exist under `osLive`; the cascade and
the resolver both return `NotFound` with no external-tool invocation. -/
theorem claim_C2_witness :
    ((SourceCascade.resolve defaultConfig osLive false 2).result = .NotFound ∧
     (SourceCascade.resolve defaultConfig osLive false 2).externalCalls = 0) ∧
    ((Resolver.resolveOne defaultConfig osLive 0 stEmpty 2).result = .NotFound ∧
     (Resolver.resolveOne defaultConfig osLive 0 stEmpty 2).externalCalls = 0) :=
  ⟨claim_C2_notFound_short_circuits.1 defaultConfig osLive 2 (by decide),
   claim_C2_notFound_short_circuits.2 defaultConfig osLive 0 stEmpty 2 (by decide)
     (by decide) (by decide) (by decide) (by decide)⟩

theorem fallThrough_externalCalls (cfg : ResolverConfig) (os : OsModel) (pid : Nat)
    (firstErr : ResolutionResult) (hfb : cfg.enableExternalFallback = true) :
    (SourceCascade.fallThrough cfg os pid firstErr).externalCalls = 1 := by
  unfold SourceCascade.fallThrough
  rw [hfb]
  simp only [if_true]
  split <;> rfl

/-- C3: for every PID, `Unsupported` or `PermissionDenied` from the
structured source makes the cascade invoke `ExternalToolSource`; if the
fallback also fails, the last error is returned, preferring the more
specific `PermissionDenied` over a generic failure; and with the
structured source forced to `Unsupported`, `resolveOne` still returns the
correct directory via `ExternalToolSource`. -/
theorem claim_C3_fallback_and_error_preference :
    (∀ (cfg : ResolverConfig) (os : OsModel) (pid : Nat),
      cfg.enableExternalFallback = true →
      ((StructuredQuerySource.query os pid).result = .Unsupported ∨
       (StructuredQuerySource.query os pid).result = .PermissionDenied) →
        (SourceCascade.resolve cfg os false pid).externalCalls = 1) ∧
    (∀ (cfg : ResolverConfig) (os : OsModel) (pid : Nat),
      cfg.enableExternalFallback = true →
      (StructuredQuerySource.query os pid).result = .PermissionDenied →
      (ExternalToolSource.query cfg os pid).result = .Timeout →
        (SourceCascade.resolve cfg os false pid).result = .PermissionDenied) ∧
    (∀ (cfg : ResolverConfig) (os : OsModel) (pid : Nat),
      cfg.enableExternalFallback = true →
      (StructuredQuerySource.query os pid).result = .Unsupported →
      (ExternalToolSource.query cfg os pid).result = .Timeout →
        (SourceCascade.resolve cfg os false pid).result = .Timeout) ∧
    (∀ (cfg : ResolverConfig) (os : OsModel) (now : Nat) (st : ResolverState)
       (pid : Nat) (d : String),
      cfg.enableExternalFallback = true →
      st.cache.findPid pid = none →
      os.structuredAvailable = false →
      (ExternalToolSource.query cfg os pid).result = .Resolved d .ExternalTool →
        (Resolver.resolveOne cfg os now st pid).result = .Resolved d .ExternalTool) := by
  refine ⟨?_, ?_, ?_, ?_⟩
  · intro cfg os pid hfb hs
    cases hs with
    | inl h => simp [SourceCascade.resolve, h, fallThrough_externalCalls cfg os pid _ hfb]
    | inr h => simp [SourceCascade.resolve, h, fallThrough_externalCalls cfg os pid _ hfb]
  · intro cfg os pid hfb hs he
    simp [SourceCascade.resolve, hs, SourceCascade.fallThrough, hfb, he, preferError]
  · intro cfg os pid hfb hs he
    simp [SourceCascade.resolve, hs, SourceCascade.fallThrough, hfb, he, preferError]
  · intro cfg os now st pid d hfb hmiss hu he
    have hq : StructuredQuerySource.query os pid = ⟨.Unsupported, none⟩ := by
      simp [StructuredQuerySource.query, hu]
    have hget : ResolutionCache.get cfg os.liveToken now st.cache pid = (none, st.cache) := by
      simp [ResolutionCache.get, hmiss]
    cases hflag : st.structuredUnsupported with
    | true =>
      simp [Resolver.resolveOne, hget, SourceCascade.resolve, hflag, hfb, he]
    | false =>
      simp [Resolver.resolveOne, hget, SourceCascade.resolve, hflag, hq,
        SourceCascade.fallThrough, hfb, he]

/-- Witness for C3: PID 3 is permission-denied under `osDeniedHung` and the
hung external tool times out, so the cascade invokes it once and returns
`PermissionDenied`; PID 7 under `osHung` gives `Unsupported` then tool
`Timeout`, so `Timeout` is returned; and under `osUnavailable`
(`StructuredQuerySource` forced `Unsupported`) `resolveOne` resolves PID 7
via the external tool. -/
theorem claim_C3_witness :
    (SourceCascade.resolve defaultConfig osDeniedHung false 3).externalCalls = 1 ∧
    (SourceCascade.resolve defaultConfig osDeniedHung false 3).result = .PermissionDenied ∧
    (SourceCascade.resolve defaultConfig osHung false 7).result = .Timeout ∧
    (Resolver.resolveOne defaultConfig osUnavailable 0 stEmpty 7).result =
      .Resolved "/d" .ExternalTool :=
  ⟨claim_C3_fallback_and_error_preference.1 defaultConfig osDeniedHung 3 (by decide)
     (Or.inr (by decide)),
   claim_C3_fallback_and_error_preference.2.1 defaultConfig osDeniedHung 3 (by decide)
     (by decide) (by decide),
   claim_C3_fallback_and_error_preference.2.2.1 defaultConfig osHung 7 (by decide)
     (by decide) (by decide),
   claim_C3_fallback_and_error_preference.2.2.2 defaultConfig osUnavailable 0 stEmpty 7 "/d"
     (by decide) (by decide) (by decide) (by decide)⟩

/-- C7: for every PID, `Timeout` from the structured source still falls
through to `ExternalToolSource` rather than propagating directly: the
external tool is invoked once and its answer (success or its own failure)
determines the cascade's result. -/
theorem claim_C7_structured_timeout_falls_through :
    ∀ (cfg : ResolverConfig) (os : OsModel) (pid : Nat),
      cfg.enableExternalFallback = true →
      (StructuredQuerySource.query os pid).result = .Timeout →
        (SourceCascade.resolve cfg os false pid).externalCalls = 1 ∧
        (∀ d, (ExternalToolSource.query cfg os pid).result = .Resolved d .ExternalTool →
          (SourceCascade.resolve cfg os false pid).result = .Resolved d .ExternalTool) ∧
        ((ExternalToolSource.query cfg os pid).result = .NotFound →
          (SourceCascade.resolve cfg os false pid).result = .NotFound) := by
  intro cfg os pid hfb hs
  refine ⟨?_, ?_, ?_⟩
  · simp [SourceCascade.resolve, hs, fallThrough_externalCalls cfg os pid _ hfb]
  · intro d he
    simp [SourceCascade.resolve, hs, SourceCascade.fallThrough, hfb, he]
  · intro he
    simp [SourceCascade.resolve, hs, SourceCascade.fallThrough, hfb, he, preferError]

/-- Witness for C7: the structured primitive for PID 4 hangs under
`osStructHang`, so its timeout guard reports `Timeout`; the cascade still
queries the external tool once and returns its directory. -/
theorem claim_C7_witness :
    (SourceCascade.resolve defaultConfig osStructHang false 4).externalCalls = 1 ∧
    (SourceCascade.resolve defaultConfig osStructHang false 4).result =
      .Resolved "/h" .ExternalTool :=
  ⟨(claim_C7_structured_timeout_falls_through defaultConfig osStructHang 4 (by decide)
      (by decide)).1,
   (claim_C7_structured_timeout_falls_through defaultConfig osStructHang 4 (by decide)
      (by decide)).2.1 "/h" (by decide)⟩

/-- C6: `ExternalToolSource.query` returns `NotFound` when the target PID
is absent from the tool's output within budget (the vanished race is
`NotFound`, not an error, and no kill is needed); when the command exceeds
its wall-clock budget it returns `Timeout` with the subprocess killed and
elapsed time bounded by the budget; and a hung tool makes `resolveOne`
return `Timeout` rather than blocking. -/
theorem claim_C6_external_tool_notfound_and_timeout :
    (∀ (cfg : ResolverConfig) (os : OsModel) (pid : Nat),
      os.toolRuntimeMs ≤ cfg.externalToolTimeoutMs →
      os.toolOutput.lookup pid = none →
        (ExternalToolSource.query cfg os pid).result = .NotFound ∧
        (ExternalToolSource.query cfg os pid).killedSubprocess = false) ∧
    (∀ (cfg : ResolverConfig) (os : OsModel) (pid : Nat),
      cfg.externalToolTimeoutMs < os.toolRuntimeMs →
        ExternalToolSource.query cfg os pid = ⟨.Timeout, cfg.externalToolTimeoutMs, true⟩ ∧
        (ExternalToolSource.query cfg os pid).elapsedMs ≤ cfg.externalToolTimeoutMs) ∧
    (∀ (cfg : ResolverConfig) (os : OsModel) (now : Nat) (st : ResolverState) (pid : Nat),
      cfg.enableExternalFallback = true →
      st.cache.findPid pid = none →
      os.structuredAvailable = false →
      cfg.externalToolTimeoutMs < os.toolRuntimeMs →
        (Resolver.resolveOne cfg os now st pid).result = .Timeout) := by
  refine ⟨?_, ?_, ?_⟩
  · intro cfg os pid hrt hl
    have hn : ¬ cfg.externalToolTimeoutMs < os.toolRuntimeMs := Nat.not_lt.mpr hrt
    constructor <;> simp [ExternalToolSource.query, hn, hl]
  · intro cfg os pid hrt
    constructor <;> simp [ExternalToolSource.query, hrt]
  · intro cfg os now st pid hfb hmiss hu hrt
    have he : (ExternalToolSource.query cfg os pid).result = .Timeout := by
      simp [ExternalToolSource.query, hrt]
    have hq : StructuredQuerySource.query os pid = ⟨.Unsupported, none⟩ := by
      simp [StructuredQuerySource.query, hu]
    have hget : ResolutionCache.get cfg os.liveToken now st.cache pid = (none, st.cache) := by
      simp [ResolutionCache.get, hmiss]
    cases hflag : st.structuredUnsupported with
    | true =>
      simp [Resolver.resolveOne, hget, SourceCascade.resolve, hflag, hfb, he]
    | false =>
      simp [Resolver.resolveOne, hget, SourceCascade.resolve, hflag, hq,
        SourceCascade.fallThrough, hfb, he, preferError]

/-- Witness for C6: PID 3 is absent from `osDenied`'s in-budget tool output
(`NotFound`, nothing killed); under `osHung` the tool exceeds the 2000ms
default budget (`Timeout`, subprocess killed, elapsed within budget) and
`resolveOne` surfaces `Timeout`. -/
theorem claim_C6_witness :
    ((ExternalToolSource.query defaultConfig osDenied 3).result = .NotFound ∧
     (ExternalToolSource.query defaultConfig osDenied 3).killedSubprocess = false) ∧
    (ExternalToolSource.query defaultConfig osHung 7 = ⟨.Timeout, 2000, true⟩ ∧
     (ExternalToolSource.query defaultConfig osHung 7).elapsedMs ≤ 2000) ∧
    (Resolver.resolveOne defaultConfig osHung 0 stEmpty 7).result = .Timeout :=
  ⟨claim_C6_external_tool_notfound_and_timeout.1 defaultConfig osDenied 3 (by decide)
     (by decide),
   claim_C6_external_tool_notfound_and_timeout.2.1 defaultConfig osHung 7 (by decide),
   claim_C6_external_tool_notfound_and_timeout.2.2 defaultConfig osHung 0 stEmpty 7
     (by decide) (by decide) (by decide) (by decide)⟩

theorem find?_filter_ne (l : List CacheEntry) (p q : Nat) (hpq : q ≠ p) :
    (l.filter (fun e => e.pid != p)).find? (fun e => e.pid == q) =
      l.find? (fun e => e.pid == q) := by
  induction l with
  | nil => rfl
  | cons e l ih =>
    by_cases hp : e.pid = p
    · have h1 : (e.pid != p) = false := by simp [hp]
      have h2 : (e.pid == q) = false := beq_eq_false_iff_ne.mpr (by rw [hp]; exact hpq.symm)
      simp [List.filter_cons, h1, List.find?_cons, h2, ih]
    · have h1 : (e.pid != p) = true := by simp [hp]
      by_cases hq : e.pid = q
      · have h2 : (e.pid == q) = true := by simp [hq]
        simp [List.filter_cons, h1, List.find?_cons, h2]
      · have h2 : (e.pid == q) = false := by simp [hq]
        simp [List.filter_cons, h1, List.find?_cons, h2, ih]

theorem findPid_removePid_self (c : CacheState) (p : Nat) :
    (c.removePid p).findPid p = none := by
  unfold CacheState.removePid CacheState.findPid
  rw [List.find?_eq_none]
  intro e he
  have hm := List.mem_filter.mp he
  simpa using hm.2

theorem findPid_removePid_other (c : CacheState) (p q : Nat) (h : q ≠ p) :
    (c.removePid p).findPid q = c.findPid q :=
  find?_filter_ne c.entries p q h

theorem get_fst (cfg : ResolverConfig) (live : Nat → Option Nat) (now : Nat)
    (c : CacheState) (pid : Nat) :
    (ResolutionCache.get cfg live now c pid).1 =
      (c.findPid pid).bind
        (fun e => if entryFresh cfg (live pid) now e then some e.value else none) := by
  unfold ResolutionCache.get
  cases hf : c.findPid pid with
  | none => simp
  | some e => by_cases hfr : entryFresh cfg (live pid) now e <;> simp [hfr]

theorem get_fst_hitValue (cfg : ResolverConfig) (os : OsModel) (now : Nat)
    (c : CacheState) (pid : Nat) :
    (ResolutionCache.get cfg os.liveToken now c pid).1 = hitValue cfg os now c pid :=
  get_fst cfg os.liveToken now c pid

theorem get_snd_findPid_other (cfg : ResolverConfig) (live : Nat → Option Nat)
    (now : Nat) (c : CacheState) (p q : Nat) (h : q ≠ p) :
    ((ResolutionCache.get cfg live now c p).2).findPid q = c.findPid q := by
  unfold ResolutionCache.get
  cases hf : c.findPid p with
  | none => simp
  | some e =>
    have hep : e.pid = p := by
      have := List.find?_some hf
      exact eq_of_beq this
    have h2 : (e.pid == q) = false := beq_eq_false_iff_ne.mpr (by rw [hep]; exact h.symm)
    by_cases hfr : entryFresh cfg (live p) now e
    · simp only [hfr, if_true]
      show (CacheState.mk (e :: (c.removePid p).entries)).findPid q = c.findPid q
      unfold CacheState.findPid
      simp only [List.find?_cons, h2]
      exact findPid_removePid_other c p q h
    · simp only [hfr, if_false]
      exact findPid_removePid_other c p q h

theorem put_not_timeout (cfg : ResolverConfig) (c : CacheState) (pid : Nat)
    (r : ResolutionResult) (tok : Option Nat) (now : Nat) (hr : r ≠ .Timeout) :
    ResolutionCache.put cfg c pid r tok now =
      ⟨(CacheEntry.mk pid r now tok :: (c.removePid pid).entries).take cfg.cacheCapacity⟩ := by
  cases r <;> first | rfl | exact absurd rfl hr

theorem get_put_fresh (cfg : ResolverConfig) (live : Nat → Option Nat) (c : CacheState)
    (pid : Nat) (r : ResolutionResult) (tok : Option Nat) (now1 now2 : Nat)
    (hr : r ≠ .Timeout) (hcap : 1 ≤ cfg.cacheCapacity) (htok : tok = live pid)
    (hw : now2 < now1 + ttlFor cfg r) :
    (ResolutionCache.get cfg live now2 (ResolutionCache.put cfg c pid r tok now1) pid).1 =
      some r := by
  obtain ⟨k, hk⟩ : ∃ k, cfg.cacheCapacity = k + 1 :=
    ⟨cfg.cacheCapacity - 1, by omega⟩
  have hfind :
      (ResolutionCache.put cfg c pid r tok now1).findPid pid =
        some (CacheEntry.mk pid r now1 tok) := by
    rw [put_not_timeout cfg c pid r tok now1 hr, hk]
    show (CacheState.mk
        (CacheEntry.mk pid r now1 tok :: (c.removePid pid).entries.take k)).findPid pid =
      some (CacheEntry.mk pid r now1 tok)
    unfold CacheState.findPid
    simp [List.find?_cons]
  rw [get_fst, hfind]
  simp [entryFresh, htok, hw]

theorem resolveOne_of_get_some (cfg : ResolverConfig) (os : OsModel) (now : Nat)
    (st : ResolverState) (pid : Nat) (r : ResolutionResult)
    (hg : (ResolutionCache.get cfg os.liveToken now st.cache pid).1 = some r) :
    (Resolver.resolveOne cfg os now st pid).result = r ∧
    (Resolver.resolveOne cfg os now st pid).cascadeRuns = 0 ∧
    (Resolver.resolveOne cfg os now st pid).structuredCalls = 0 ∧
    (Resolver.resolveOne cfg os now st pid).externalCalls = 0 := by
  unfold Resolver.resolveOne
  simp [hg]

theorem resolveOne_of_get_none (cfg : ResolverConfig) (os : OsModel) (now : Nat)
    (st : ResolverState) (pid : Nat)
    (hg : (ResolutionCache.get cfg os.liveToken now st.cache pid).1 = none) :
    Resolver.resolveOne cfg os now st pid =
      ⟨(SourceCascade.resolve cfg os st.structuredUnsupported pid).result,
       ⟨ResolutionCache.put cfg (ResolutionCache.get cfg os.liveToken now st.cache pid).2 pid
          (SourceCascade.resolve cfg os st.structuredUnsupported pid).result
          (tokenForStore (SourceCascade.resolve cfg os st.structuredUnsupported pid) os pid) now,
        st.structuredUnsupported ||
          (SourceCascade.resolve cfg os st.structuredUnsupported pid).sawUnsupported⟩,
       1,
       (SourceCascade.resolve cfg os st.structuredUnsupported pid).structuredCalls,
       (SourceCascade.resolve cfg os st.structuredUnsupported pid).externalCalls⟩ := by
  unfold Resolver.resolveOne
  simp only [hg]

theorem get_of_findPid_none (cfg : ResolverConfig) (live : Nat → Option Nat) (now : Nat)
    (c : CacheState) (pid : Nat) (h : c.findPid pid = none) :
    ResolutionCache.get cfg live now c pid = (none, c) := by
  unfold ResolutionCache.get
  simp [h]

theorem cascade_tok_norm (cfg : ResolverConfig) (os : OsModel) (b : Bool) (pid : Nat) :
    tokenForStore (SourceCascade.resolve cfg os b pid) os pid = os.liveToken pid := by
  unfold tokenForStore
  rcases cascade_token cfg os b pid with h | h
  · rw [h]
  · cases hl : os.liveToken pid with
    | none => rw [h, hl]
    | some t => rw [h, hl]

theorem resolveOne_caches (cfg : ResolverConfig) (os : OsModel) (now1 now2 : Nat)
    (st : ResolverState) (pid : Nat)
    (hmiss : st.cache.findPid pid = none)
    (hcap : 1 ≤ cfg.cacheCapacity)
    (hr : (Resolver.resolveOne cfg os now1 st pid).result ≠ .Timeout)
    (hw : now2 < now1 + ttlFor cfg (Resolver.resolveOne cfg os now1 st pid).result) :
    (Resolver.resolveOne cfg os now2 (Resolver.resolveOne cfg os now1 st pid).state
        pid).result = (Resolver.resolveOne cfg os now1 st pid).result ∧
    (Resolver.resolveOne cfg os now2 (Resolver.resolveOne cfg os now1 st pid).state
        pid).cascadeRuns = 0 ∧
    (Resolver.resolveOne cfg os now2 (Resolver.resolveOne cfg os now1 st pid).state
        pid).structuredCalls = 0 ∧
    (Resolver.resolveOne cfg os now2 (Resolver.resolveOne cfg os now1 st pid).state
        pid).externalCalls = 0 := by
  have hget1 : ResolutionCache.get cfg os.liveToken now1 st.cache pid = (none, st.cache) :=
    get_of_findPid_none cfg os.liveToken now1 st.cache pid hmiss
  have hro := resolveOne_of_get_none cfg os now1 st pid (by rw [hget1])
  have hres : (Resolver.resolveOne cfg os now1 st pid).result =
      (SourceCascade.resolve cfg os st.structuredUnsupported pid).result := by rw [hro]
  have hstate : (Resolver.resolveOne cfg os now1 st pid).state.cache =
      ResolutionCache.put cfg st.cache pid
        (SourceCascade.resolve cfg os st.structuredUnsupported pid).result
        (os.liveToken pid) now1 := by
    rw [hro, hget1, cascade_tok_norm]
  have hg2 : (ResolutionCache.get cfg os.liveToken now2
      (Resolver.resolveOne cfg os now1 st pid).state.cache pid).1 =
      some (SourceCascade.resolve cfg os st.structuredUnsupported pid).result := by
    rw [hstate]
    exact get_put_fresh cfg os.liveToken st.cache pid
      (SourceCascade.resolve cfg os st.structuredUnsupported pid).result
      (os.liveToken pid) now1 now2 (hres ▸ hr) hcap rfl (hres ▸ hw)
  have hfin := resolveOne_of_get_some cfg os now2
    (Resolver.resolveOne cfg os now1 st pid).state pid
    (SourceCascade.resolve cfg os st.structuredUnsupported pid).result hg2
  exact ⟨hfin.1.trans hres.symm, hfin.2⟩

/-- C1: PID-reuse safety — the cache never returns an entry whose stored
`processStartToken` differs from the live process's current start token:
on every `get` the token is re-validated, a mismatch is treated as a miss
and the stale entry is evicted; consequently after process exit and PID
reuse, `resolveOne` returns the new process's directory, never the stale
one. -/
theorem claim_C1_pid_reuse_safety :
    (∀ (cfg : ResolverConfig) (live : Nat → Option Nat) (now : Nat) (c : CacheState)
       (pid : Nat) (e : CacheEntry),
      c.findPid pid = some e → e.processStartToken ≠ live pid →
        (ResolutionCache.get cfg live now c pid).1 = none ∧
        ((ResolutionCache.get cfg live now c pid).2).findPid pid = none) ∧
    (∀ (cfg : ResolverConfig) (os : OsModel) (now : Nat) (st : ResolverState)
       (pid : Nat) (info : ProcInfo) (e : CacheEntry),
      os.procs pid = some info → os.structuredAvailable = true →
      os.structuredAccess pid = true → os.structuredHangs pid = false →
      st.structuredUnsupported = false →
      st.cache.findPid pid = some e →
      e.processStartToken ≠ some info.startToken →
        (Resolver.resolveOne cfg os now st pid).result = .Resolved info.cwd .Structured) := by
  constructor
  · intro cfg live now c pid e hf hne
    have hfr : entryFresh cfg (live pid) now e = false := by
      unfold entryFresh
      have hb : (e.processStartToken == live pid) = false := beq_eq_false_iff_ne.mpr hne
      simp [hb]
    constructor
    · rw [get_fst, hf]
      simp [hfr]
    · unfold ResolutionCache.get
      rw [hf]
      simp only [hfr, Bool.false_eq_true, if_false]
      exact findPid_removePid_self c pid
  · intro cfg os now st pid info e hproc havail hacc hhang hflag hf hne
    have hq : StructuredQuerySource.query os pid =
        ⟨.Resolved info.cwd .Structured, some info.startToken⟩ := by
      simp [StructuredQuerySource.query, havail, hhang, hproc, hacc]
    have hlt : os.liveToken pid = some info.startToken := by
      simp [OsModel.liveToken, hproc]
    have hfr : entryFresh cfg (os.liveToken pid) now e = false := by
      unfold entryFresh
      have hb : (e.processStartToken == os.liveToken pid) = false :=
        beq_eq_false_iff_ne.mpr (by rw [hlt]; exact hne)
      simp [hb]
    have hg : (ResolutionCache.get cfg os.liveToken now st.cache pid).1 = none := by
      rw [get_fst, hf]
      simp [hfr]
    have hro := resolveOne_of_get_none cfg os now st pid hg
    rw [hro]
    show (SourceCascade.resolve cfg os st.structuredUnsupported pid).result = _
    rw [hflag]
    simp [SourceCascade.resolve, hq]

/-- Witness for C1: `stStale` caches PID 1's old lifetime (token 11, CWD
"/a"); under `osReused` the live token is 22 with CWD "/new".  The get is
a miss that evicts the stale entry, and `resolveOne` returns "/new". -/
theorem claim_C1_witness :
    ((ResolutionCache.get defaultConfig osReused.liveToken 10 stStale.cache 1).1 = none ∧
     ((ResolutionCache.get defaultConfig osReused.liveToken 10 stStale.cache 1).2).findPid 1 =
       none) ∧
    (Resolver.resolveOne defaultConfig osReused 10 stStale 1).result =
      .Resolved "/new" .Structured :=
  ⟨claim_C1_pid_reuse_safety.1 defaultConfig osReused.liveToken 10 stStale.cache 1
     ⟨1, .Resolved "/a" .Structured, 0, some 11⟩ (by decide) (by decide),
   claim_C1_pid_reuse_safety.2 defaultConfig osReused 10 stStale 1 ⟨22, "/new"⟩
     ⟨1, .Resolved "/a" .Structured, 0, some 11⟩ (by decide) (by decide) (by decide)
     (by decide) (by decide) (by decide) (by decide)⟩

/-- Counterexample to C4 as stated: PID 7 is live under `osHung`, but the
first `resolveOne` yields `Timeout` (structured unavailable, tool hung),
and `Timeout` is deliberately not cached (§7: not sticky).  The second
call 50ms later — within the positive TTL window — returns the identical
result but performs an OS query again (one external call), contradicting
"the second call performs no OS query". -/
theorem claim_C4_counterexample :
    (osHung.procs 7).isSome = true ∧
    50 < 0 + defaultConfig.cacheTtlMs ∧
    (Resolver.resolveOne defaultConfig osHung 50
        (Resolver.resolveOne defaultConfig osHung 0 stEmpty 7).state 7).result =
      (Resolver.resolveOne defaultConfig osHung 0 stEmpty 7).result ∧
    ¬((Resolver.resolveOne defaultConfig osHung 50
          (Resolver.resolveOne defaultConfig osHung 0 stEmpty 7).state 7).structuredCalls = 0 ∧
      (Resolver.resolveOne defaultConfig osHung 50
          (Resolver.resolveOne defaultConfig osHung 0 stEmpty 7).state 7).externalCalls = 0) := by
  decide

/-- C4 (amended): cache idempotence — for every live PID with a cold cache
slot, when the first `resolveOne` result is not `Timeout` (Timeout is
deliberately not cached, §7), a second `resolveOne` within the result's
TTL window returns the identical `ResolutionResult` and performs no OS
query: no cascade run, no structured call, no external call. -/
theorem claim_C4_cache_idempotence_amended :
    ∀ (cfg : ResolverConfig) (os : OsModel) (now1 now2 : Nat) (st : ResolverState)
      (pid : Nat),
      (os.procs pid).isSome = true →
      st.cache.findPid pid = none →
      1 ≤ cfg.cacheCapacity →
      (Resolver.resolveOne cfg os now1 st pid).result ≠ .Timeout →
      now2 < now1 + ttlFor cfg (Resolver.resolveOne cfg os now1 st pid).result →
        (Resolver.resolveOne cfg os now2 (Resolver.resolveOne cfg os now1 st pid).state
            pid).result = (Resolver.resolveOne cfg os now1 st pid).result ∧
        (Resolver.resolveOne cfg os now2 (Resolver.resolveOne cfg os now1 st pid).state
            pid).cascadeRuns = 0 ∧
        (Resolver.resolveOne cfg os now2 (Resolver.resolveOne cfg os now1 st pid).state
            pid).structuredCalls = 0 ∧
        (Resolver.resolveOne cfg os now2 (Resolver.resolveOne cfg os now1 st pid).state
            pid).externalCalls = 0 := by
  intro cfg os now1 now2 st pid _ hmiss hcap hr hw
  exact resolveOne_caches cfg os now1 now2 st pid hmiss hcap hr hw

/-- Witness for the amended C4: PID 1 is live under `osLive`; the second
call 50ms after the first returns the same result with zero OS queries. -/
theorem claim_C4_witness :
    (Resolver.resolveOne defaultConfig osLive 50
        (Resolver.resolveOne defaultConfig osLive 0 stEmpty 1).state 1).result =
      (Resolver.resolveOne defaultConfig osLive 0 stEmpty 1).result ∧
    (Resolver.resolveOne defaultConfig osLive 50
        (Resolver.resolveOne defaultConfig osLive 0 stEmpty 1).state 1).cascadeRuns = 0 ∧
    (Resolver.resolveOne defaultConfig osLive 50
        (Resolver.resolveOne defaultConfig osLive 0 stEmpty 1).state 1).structuredCalls = 0 ∧
    (Resolver.resolveOne defaultConfig osLive 50
        (Resolver.resolveOne defaultConfig osLive 0 stEmpty 1).state 1).externalCalls = 0 :=
  claim_C4_cache_idempotence_amended defaultConfig osLive 0 50 stEmpty 1 (by decide)
    (by decide) (by decide) (by decide) (by decide)

theorem cascade_skip_structuredCalls (cfg : ResolverConfig) (os : OsModel) (pid : Nat) :
    (SourceCascade.resolve cfg os true pid).structuredCalls = 0 := by
  unfold SourceCascade.resolve
  simp only [if_true]
  split <;> rfl

theorem fallThrough_saw (cfg : ResolverConfig) (os : OsModel) (pid : Nat)
    (firstErr : ResolutionResult) :
    (SourceCascade.fallThrough cfg os pid firstErr).sawUnsupported =
      (firstErr == .Unsupported) := by
  unfold SourceCascade.fallThrough
  split
  · split <;> rfl
  · rfl

/-- C8: negative-result caching — `PermissionDenied` and `Unsupported` are
cached with the longer `negativeTtlMs` while positive results use
`cacheTtlMs` (and the defaults order them accordingly); a cached
`PermissionDenied` is not retried within its session window (repeat call
performs no OS query); once the structured source reports `Unsupported`
the session flag is set and the cascade skips that source from then on;
and `Timeout` is not sticky — it is never stored, so future calls retry
from scratch. -/
theorem claim_C8_negative_caching_policy :
    (∀ cfg : ResolverConfig,
      ttlFor cfg .PermissionDenied = cfg.negativeTtlMs ∧
      ttlFor cfg .Unsupported = cfg.negativeTtlMs) ∧
    (∀ (cfg : ResolverConfig) (d : String) (k : SourceKind),
      ttlFor cfg (.Resolved d k) = cfg.cacheTtlMs) ∧
    defaultConfig.cacheTtlMs < defaultConfig.negativeTtlMs ∧
    (∀ (cfg : ResolverConfig) (os : OsModel) (now1 now2 : Nat) (st : ResolverState)
       (pid : Nat),
      st.cache.findPid pid = none → 1 ≤ cfg.cacheCapacity →
      (Resolver.resolveOne cfg os now1 st pid).result = .PermissionDenied →
      now2 < now1 + cfg.negativeTtlMs →
        (Resolver.resolveOne cfg os now2 (Resolver.resolveOne cfg os now1 st pid).state
            pid).result = .PermissionDenied ∧
        (Resolver.resolveOne cfg os now2 (Resolver.resolveOne cfg os now1 st pid).state
            pid).structuredCalls = 0 ∧
        (Resolver.resolveOne cfg os now2 (Resolver.resolveOne cfg os now1 st pid).state
            pid).externalCalls = 0) ∧
    (∀ (cfg : ResolverConfig) (os : OsModel) (now : Nat) (st : ResolverState) (pid : Nat),
      st.structuredUnsupported = true →
        (Resolver.resolveOne cfg os now st pid).structuredCalls = 0) ∧
    (∀ (cfg : ResolverConfig) (os : OsModel) (now : Nat) (st : ResolverState) (pid : Nat),
      os.structuredAvailable = false →
      hitValue cfg os now st.cache pid = none →
        (Resolver.resolveOne cfg os now st pid).state.structuredUnsupported = true) ∧
    (∀ (cfg : ResolverConfig) (c : CacheState) (pid : Nat) (tok : Option Nat) (now : Nat),
      ResolutionCache.put cfg c pid .Timeout tok now = c) := by
  refine ⟨?_, ?_, ?_, ?_, ?_, ?_, ?_⟩
  · intro cfg
    exact ⟨rfl, rfl⟩
  · intro cfg d k
    rfl
  · decide
  · intro cfg os now1 now2 st pid hmiss hcap hpd hw
    have hr : (Resolver.resolveOne cfg os now1 st pid).result ≠ .Timeout := by
      rw [hpd]
      intro hcontra
      exact ResolutionResult.noConfusion hcontra
    have hw2 : now2 < now1 + ttlFor cfg (Resolver.resolveOne cfg os now1 st pid).result := by
      rw [hpd]
      exact hw
    have hfin := resolveOne_caches cfg os now1 now2 st pid hmiss hcap hr hw2
    exact ⟨hfin.1.trans hpd, hfin.2.2.1, hfin.2.2.2⟩
  · intro cfg os now st pid hflag
    cases hg : (ResolutionCache.get cfg os.liveToken now st.cache pid).1 with
    | some r => exact (resolveOne_of_get_some cfg os now st pid r hg).2.2.1
    | none =>
      have hro := resolveOne_of_get_none cfg os now st pid hg
      rw [hro]
      show (SourceCascade.resolve cfg os st.structuredUnsupported pid).structuredCalls = 0
      rw [hflag]
      exact cascade_skip_structuredCalls cfg os pid
  · intro cfg os now st pid hu hmiss
    have hg : (ResolutionCache.get cfg os.liveToken now st.cache pid).1 = none := by
      rw [get_fst_hitValue]
      exact hmiss
    have hro := resolveOne_of_get_none cfg os now st pid hg
    rw [hro]
    show (st.structuredUnsupported ||
        (SourceCascade.resolve cfg os st.structuredUnsupported pid).sawUnsupported) = true
    cases hflag : st.structuredUnsupported with
    | true => simp
    | false =>
      have hq : StructuredQuerySource.query os pid = ⟨.Unsupported, none⟩ := by
        simp [StructuredQuerySource.query, hu]
      simp [SourceCascade.resolve, hq, fallThrough_saw]
      decide
  · intro cfg c pid tok now
    rfl

/-- Witness for C8: the defaults order the TTLs; PID 3 is permission-denied
under `osDenied`, the result is cached and a repeat call 1000ms later does
no OS query; a session flagged `Unsupported` (`stFlagged`) performs no
structured call; resolving under `osUnavailable` sets the session flag;
and putting `Timeout` leaves the cache unchanged. -/
theorem claim_C8_witness :
    (ttlFor defaultConfig .PermissionDenied = 30000 ∧
     ttlFor defaultConfig .Unsupported = 30000) ∧
    ttlFor defaultConfig (.Resolved "/a" .Structured) = 300 ∧
    ((Resolver.resolveOne defaultConfig osDenied 1000
        (Resolver.resolveOne defaultConfig osDenied 0 stEmpty 3).state 3).result =
      .PermissionDenied ∧
     (Resolver.resolveOne defaultConfig osDenied 1000
        (Resolver.resolveOne defaultConfig osDenied 0 stEmpty 3).state 3).structuredCalls = 0 ∧
     (Resolver.resolveOne defaultConfig osDenied 1000
        (Resolver.resolveOne defaultConfig osDenied 0 stEmpty 3).state 3).externalCalls = 0) ∧
    (Resolver.resolveOne defaultConfig osLive 0 stFlagged 1).structuredCalls = 0 ∧
    (Resolver.resolveOne defaultConfig osUnavailable 0 stEmpty 7).state.structuredUnsupported =
      true ∧
    ResolutionCache.put defaultConfig stEmpty.cache 9 .Timeout none 0 = stEmpty.cache :=
  ⟨claim_C8_negative_caching_policy.1 defaultConfig,
   claim_C8_negative_caching_policy.2.1 defaultConfig "/a" .Structured,
   claim_C8_negative_caching_policy.2.2.2.1 defaultConfig osDenied 0 1000 stEmpty 3
     (by decide) (by decide) (by decide) (by decide),
   claim_C8_negative_caching_policy.2.2.2.2.1 defaultConfig osLive 0 stFlagged 1 (by decide),
   claim_C8_negative_caching_policy.2.2.2.2.2.1 defaultConfig osUnavailable 0 stEmpty 7
     (by decide) (by decide),
   claim_C8_negative_caching_policy.2.2.2.2.2.2 defaultConfig stEmpty.cache 9 none 0⟩

theorem serve_joiners (cfg : ResolverConfig) (os : OsModel) (now : Nat) (pid : Nat)
    (r : ResolutionResult) :
    ∀ (n : Nat) (st : ResolverState),
      Resolver.serveSimultaneous cfg os now pid n st (some r) =
        (List.replicate n r, st, 0, 0, 0) := by
  intro n
  induction n with
  | zero => intro st; rfl
  | succ m ih =>
    intro st
    simp only [Resolver.serveSimultaneous, ih st]
    simp [List.replicate_succ]

/-- C9: concurrent request deduplication — for every cold PID, N ≥ 1
simultaneous `resolveOne` calls served against the shared in-flight signal
trigger exactly one cascade execution (the first caller owns it; all late
joiners attach to the in-flight result), all N callers observe the same
`ResolutionResult`, and the total source query counts are those of the
single execution. -/
theorem claim_C9_concurrent_dedup :
    ∀ (cfg : ResolverConfig) (os : OsModel) (now : Nat) (st : ResolverState) (pid n : Nat),
      1 ≤ n →
      hitValue cfg os now st.cache pid = none →
        Resolver.serveSimultaneous cfg os now pid n st none =
          (List.replicate n (Resolver.resolveOne cfg os now st pid).result,
           (Resolver.resolveOne cfg os now st pid).state, 1,
           (Resolver.resolveOne cfg os now st pid).structuredCalls,
           (Resolver.resolveOne cfg os now st pid).externalCalls) := by
  intro cfg os now st pid n hn hmiss
  obtain ⟨m, rfl⟩ : ∃ m, n = m + 1 := ⟨n - 1, by omega⟩
  have hg : (ResolutionCache.get cfg os.liveToken now st.cache pid).1 = none := by
    rw [get_fst_hitValue]
    exact hmiss
  have hruns : (Resolver.resolveOne cfg os now st pid).cascadeRuns = 1 := by
    rw [resolveOne_of_get_none cfg os now st pid hg]
  simp only [Resolver.serveSimultaneous]
  rw [serve_joiners]
  simp [List.replicate_succ, hruns]

/-- Witness for C9: three simultaneous callers for cold PID 1 under
`osLive` all receive the single execution's result, with one cascade run
and its source counts. -/
theorem claim_C9_witness :
    Resolver.serveSimultaneous defaultConfig osLive 0 1 3 stEmpty none =
      (List.replicate 3 (Resolver.resolveOne defaultConfig osLive 0 stEmpty 1).result,
       (Resolver.resolveOne defaultConfig osLive 0 stEmpty 1).state, 1,
       (Resolver.resolveOne defaultConfig osLive 0 stEmpty 1).structuredCalls,
       (Resolver.resolveOne defaultConfig osLive 0 stEmpty 1).externalCalls) :=
  claim_C9_concurrent_dedup defaultConfig osLive 0 stEmpty 1 3 (by decide) (by decide)

theorem structuredQuery_not_unsupported (os : OsModel) (pid : Nat)
    (h : os.structuredAvailable = true) :
    (StructuredQuerySource.query os pid).result ≠ .Unsupported := by
  unfold StructuredQuerySource.query
  rw [h]
  simp only [not_true, if_false]
  split
  · simp
  · split
    · simp
    · split <;> simp

theorem sawUnsupported_of_available (cfg : ResolverConfig) (os : OsModel) (b : Bool)
    (pid : Nat) (h : os.structuredAvailable = true) :
    (SourceCascade.resolve cfg os b pid).sawUnsupported = false := by
  cases b with
  | true =>
    unfold SourceCascade.resolve
    simp only [if_true]
    split <;> rfl
  | false =>
    unfold SourceCascade.resolve
    simp only [Bool.false_eq_true, if_false]
    split
    · rfl
    · rfl
    · rw [fallThrough_saw]
      decide
    · rename_i heq
      exact absurd heq (structuredQuery_not_unsupported os pid h)
    · rw [fallThrough_saw]
      decide

theorem cascade_result_unavailable (cfg : ResolverConfig) (os : OsModel) (b : Bool)
    (pid : Nat) (hu : os.structuredAvailable = false) :
    (SourceCascade.resolve cfg os b pid).result =
      (SourceCascade.resolve cfg os true pid).result := by
  cases b with
  | true => rfl
  | false =>
    have hq : StructuredQuerySource.query os pid = ⟨.Unsupported, none⟩ := by
      simp [StructuredQuerySource.query, hu]
    by_cases hfb : cfg.enableExternalFallback
    · cases he : (ExternalToolSource.query cfg os pid).result with
      | Resolved d k =>
        simp [SourceCascade.resolve, hq, SourceCascade.fallThrough, hfb, he]
      | NotFound =>
        simp [SourceCascade.resolve, hq, SourceCascade.fallThrough, hfb, he, preferError]
      | PermissionDenied =>
        exact absurd he (externalQuery_not_permissionDenied cfg os pid)
      | Unsupported =>
        exact absurd he (externalQuery_not_unsupported cfg os pid)
      | Timeout =>
        simp [SourceCascade.resolve, hq, SourceCascade.fallThrough, hfb, he, preferError]
    · have hfb2 : cfg.enableExternalFallback = false := by simpa using hfb
      simp [SourceCascade.resolve, hq, SourceCascade.fallThrough, hfb2]

theorem collectHits_spec (cfg : ResolverConfig) (os : OsModel) (now : Nat)
    (base : CacheState) :
    ∀ (pids : List Nat) (c : CacheState), pids.Nodup →
      (∀ q ∈ pids, c.findPid q = base.findPid q) →
      (Resolver.collectHits cfg os now pids c).1 =
        pids.filterMap (fun p => (hitValue cfg os now base p).map (fun v => (p, v))) ∧
      (Resolver.collectHits cfg os now pids c).2.1 =
        pids.filter (fun p => (hitValue cfg os now base p).isNone) := by
  intro pids
  induction pids with
  | nil =>
    intro c _ _
    exact ⟨rfl, rfl⟩
  | cons p ps ih =>
    intro c hnd hagree
    have hnd2 : ps.Nodup := (List.nodup_cons.mp hnd).2
    have hpn : p ∉ ps := (List.nodup_cons.mp hnd).1
    have hagreep : c.findPid p = base.findPid p := hagree p (List.mem_cons_self p ps)
    have hval : (ResolutionCache.get cfg os.liveToken now c p).1 =
        hitValue cfg os now base p := by
      rw [get_fst]
      unfold hitValue
      rw [hagreep]
    have hagree2 : ∀ q ∈ ps,
        ((ResolutionCache.get cfg os.liveToken now c p).2).findPid q = base.findPid q := by
      intro q hq
      have hqp : q ≠ p := fun h => hpn (h ▸ hq)
      rw [get_snd_findPid_other cfg os.liveToken now c p q hqp]
      exact hagree q (List.mem_cons_of_mem p hq)
    have ihh := ih ((ResolutionCache.get cfg os.liveToken now c p).2) hnd2 hagree2
    cases hv : hitValue cfg os now base p with
    | some r =>
      have h1 : (ResolutionCache.get cfg os.liveToken now c p).1 = some r := by
        rw [hval, hv]
      constructor
      · simp only [Resolver.collectHits, h1]
        rw [ihh.1]
        simp [List.filterMap_cons, hv]
      · simp only [Resolver.collectHits, h1]
        rw [ihh.2]
        simp [List.filter_cons, hv]
    | none =>
      have h1 : (ResolutionCache.get cfg os.liveToken now c p).1 = none := by
        rw [hval, hv]
      constructor
      · simp only [Resolver.collectHits, h1]
        rw [ihh.1]
        simp [List.filterMap_cons, hv]
      · simp only [Resolver.collectHits, h1]
        rw [ihh.2]
        simp [List.filter_cons, hv]

theorem dispatchMisses_spec (cfg : ResolverConfig) (os : OsModel) (now : Nat)
    (flag0 : Bool) :
    ∀ (ms : List Nat) (st : ResolverState),
      (st.structuredUnsupported = flag0 ∨ os.structuredAvailable = false) →
      (Resolver.dispatchMisses cfg os now ms st).1 =
        ms.map (fun p => (p, (SourceCascade.resolve cfg os flag0 p).result)) := by
  intro ms
  induction ms with
  | nil =>
    intro st _
    rfl
  | cons p ps ih =>
    intro st hinv
    have hres : (SourceCascade.resolve cfg os st.structuredUnsupported p).result =
        (SourceCascade.resolve cfg os flag0 p).result := by
      cases hinv with
      | inl h => rw [h]
      | inr h =>
        rw [cascade_result_unavailable cfg os st.structuredUnsupported p h,
          cascade_result_unavailable cfg os flag0 p h]
    have hinv2 : (st.structuredUnsupported ||
        (SourceCascade.resolve cfg os st.structuredUnsupported p).sawUnsupported) = flag0 ∨
        os.structuredAvailable = false := by
      cases havail : os.structuredAvailable with
      | false => exact Or.inr rfl
      | true =>
        cases hinv with
        | inl h =>
          left
          rw [sawUnsupported_of_available cfg os st.structuredUnsupported p havail,
            Bool.or_false, h]
        | inr h =>
          rw [havail] at h
          exact absurd h (by simp)
    have ihh := ih
      ⟨ResolutionCache.put cfg st.cache p
          (SourceCascade.resolve cfg os st.structuredUnsupported p).result
          (tokenForStore (SourceCascade.resolve cfg os st.structuredUnsupported p) os p) now,
        st.structuredUnsupported ||
          (SourceCascade.resolve cfg os st.structuredUnsupported p).sawUnsupported⟩
      hinv2
    simp only [Resolver.dispatchMisses]
    rw [ihh]
    simp [hres]

theorem lookup_append_some (l1 l2 : List (Nat × ResolutionResult)) (p : Nat)
    (v : ResolutionResult) (h : l1.lookup p = some v) :
    (l1 ++ l2).lookup p = some v := by
  induction l1 with
  | nil => simp [List.lookup] at h
  | cons kw l ih =>
    obtain ⟨k, w⟩ := kw
    rw [List.cons_append]
    simp only [List.lookup] at h ⊢
    cases hk : (p == k) with
    | true =>
      rw [hk] at h
      exact h
    | false =>
      rw [hk] at h
      exact ih h

theorem lookup_append_none (l1 l2 : List (Nat × ResolutionResult)) (p : Nat)
    (h : l1.lookup p = none) :
    (l1 ++ l2).lookup p = l2.lookup p := by
  induction l1 with
  | nil => rfl
  | cons kw l ih =>
    obtain ⟨k, w⟩ := kw
    rw [List.cons_append]
    simp only [List.lookup] at h ⊢
    cases hk : (p == k) with
    | true =>
      rw [hk] at h
      simp at h
    | false =>
      rw [hk] at h
      exact ih h

theorem lookup_filterMap_of_some (f : Nat → Option ResolutionResult) :
    ∀ (pids : List Nat) (p : Nat) (v : ResolutionResult), p ∈ pids → f p = some v →
      (pids.filterMap (fun q => (f q).map (fun w => (q, w)))).lookup p = some v := by
  intro pids
  induction pids with
  | nil =>
    intro p v hp _
    simp at hp
  | cons x xs ih =>
    intro p v hp hf
    by_cases hxp : x = p
    · subst hxp
      rw [List.filterMap_cons]
      simp only [hf, Option.map_some']
      simp [List.lookup]
    · have hp2 : p ∈ xs := by
        rcases List.mem_cons.mp hp with h | h
        · exact absurd h.symm hxp
        · exact h
      rw [List.filterMap_cons]
      cases hfx : f x with
      | none =>
        simp only [hfx, Option.map_none']
        exact ih p v hp2 hf
      | some w =>
        simp only [hfx, Option.map_some']
        have hne : (p == x) = false := beq_eq_false_iff_ne.mpr (fun h => hxp h.symm)
        simp only [List.lookup, hne]
        exact ih p v hp2 hf

theorem lookup_filterMap_of_none (f : Nat → Option ResolutionResult) :
    ∀ (pids : List Nat) (p : Nat), f p = none →
      (pids.filterMap (fun q => (f q).map (fun w => (q, w)))).lookup p = none := by
  intro pids
  induction pids with
  | nil =>
    intro p _
    rfl
  | cons x xs ih =>
    intro p hf
    rw [List.filterMap_cons]
    cases hfx : f x with
    | none =>
      simp only [hfx, Option.map_none']
      exact ih p hf
    | some w =>
      have hxp : x ≠ p := by
        intro h
        rw [h, hf] at hfx
        exact Option.noConfusion hfx
      simp only [hfx, Option.map_some']
      have hne : (p == x) = false := beq_eq_false_iff_ne.mpr (fun h => hxp h.symm)
      simp only [List.lookup, hne]
      exact ih p hf

theorem lookup_map_self (g : Nat → ResolutionResult) :
    ∀ (l : List Nat) (p : Nat), p ∈ l →
      (l.map (fun q => (q, g q))).lookup p = some (g p) := by
  intro l
  induction l with
  | nil =>
    intro p hp
    simp at hp
  | cons x xs ih =>
    intro p hp
    rw [List.map_cons]
    by_cases hxp : x = p
    · subst hxp
      simp [List.lookup]
    · have hp2 : p ∈ xs := by
        rcases List.mem_cons.mp hp with h | h
        · exact absurd h.symm hxp
        · exact h
      have hne : (p == x) = false := beq_eq_false_iff_ne.mpr (fun h => hxp h.symm)
      simp only [List.lookup, hne]
      exact ih p hp2

theorem resolveOne_result_hit (cfg : ResolverConfig) (os : OsModel) (now : Nat)
    (st : ResolverState) (pid : Nat) (v : ResolutionResult)
    (h : hitValue cfg os now st.cache pid = some v) :
    (Resolver.resolveOne cfg os now st pid).result = v :=
  (resolveOne_of_get_some cfg os now st pid v
    (by rw [get_fst_hitValue]; exact h)).1

theorem resolveOne_result_miss (cfg : ResolverConfig) (os : OsModel) (now : Nat)
    (st : ResolverState) (pid : Nat)
    (h : hitValue cfg os now st.cache pid = none) :
    (Resolver.resolveOne cfg os now st pid).result =
      (SourceCascade.resolve cfg os st.structuredUnsupported pid).result := by
  rw [resolveOne_of_get_none cfg os now st pid (by rw [get_fst_hitValue]; exact h)]

/-- C5: batch independence — `resolveMany` resolves cache hits first, then
dispatches only cache misses through the cascade, and the returned mapping
gives every requested PID exactly the result an independent `resolveOne`
from the same starting state would produce; one PID's failure never blocks
or alters another PID's success. -/
theorem claim_C5_batch_independence :
    ∀ (cfg : ResolverConfig) (os : OsModel) (now : Nat) (st : ResolverState)
      (pids : List Nat), pids.Nodup →
      ∀ p ∈ pids,
        (Resolver.resolveMany cfg os now st pids).1.lookup p =
          some ((Resolver.resolveOne cfg os now st p).result) := by
  intro cfg os now st pids hnd p hp
  have hch := collectHits_spec cfg os now st.cache pids st.cache hnd (fun q _ => rfl)
  have hdm := dispatchMisses_spec cfg os now st.structuredUnsupported
    (Resolver.collectHits cfg os now pids st.cache).2.1
    ⟨(Resolver.collectHits cfg os now pids st.cache).2.2, st.structuredUnsupported⟩
    (Or.inl rfl)
  simp only [Resolver.resolveMany]
  rw [hch.1, hdm, hch.2]
  cases hv : hitValue cfg os now st.cache p with
  | some v =>
    rw [resolveOne_result_hit cfg os now st p v hv]
    exact lookup_append_some _ _ p v
      (lookup_filterMap_of_some (fun q => hitValue cfg os now st.cache q) pids p v hp hv)
  | none =>
    rw [resolveOne_result_miss cfg os now st p hv]
    rw [lookup_append_none _ _ p
      (lookup_filterMap_of_none (fun q => hitValue cfg os now st.cache q) pids p hv)]
    have hpf : p ∈ pids.filter (fun q => (hitValue cfg os now st.cache q).isNone) := by
      rw [List.mem_filter]
      exact ⟨hp, by simp [hv]⟩
    exact lookup_map_self (fun q => (SourceCascade.resolve cfg os st.structuredUnsupported
      q).result) _ p hpf

/-- Witness for C5: `resolveMany` over the valid PID 1 and the nonexistent
PID 2 under `osLive` maps PID 1 to its directory and PID 2 to `NotFound` —
each equal to its independent `resolveOne` result. -/
theorem claim_C5_witness :
    (Resolver.resolveMany defaultConfig osLive 0 stEmpty [1, 2]).1.lookup 1 =
      some (.Resolved "/a" .Structured) ∧
    (Resolver.resolveMany defaultConfig osLive 0 stEmpty [1, 2]).1.lookup 2 =
      some .NotFound :=
  ⟨(claim_C5_batch_independence defaultConfig osLive 0 stEmpty [1, 2] (by decide) 1
      (by decide)).trans (by decide),
   (claim_C5_batch_independence defaultConfig osLive 0 stEmpty [1, 2] (by decide) 2
      (by decide)).trans (by decide)⟩
